import Mathlib

/-!
Shallow embedding of the game-library import engine (desktop and Lutris
collectors) and proofs about the claims of the specification.

The embedding follows `src/importer/sources/desktop_source.py` and
`src/importer/sources/lutris_source.py`. Filesystem and GLib keyfile reads
are modelled as data supplied to the pure per-entry processing functions;
the probe of launch-command availability and icon-theme lookup are modelled
as oracles (functions passed in); calls to `time()` are modelled as a clock
indexed by the number of calls made so far in the pass.
-/

namespace Kasetter

/-! ## String utilities -/

/-- The single-quote character (code 39), used by the shlex.quote model. -/
def squoteChar : Char := Char.ofNat 39

/-- The double-quote character (code 34), used by the shlex.quote model. -/
def dquoteChar : Char := Char.ofNat 34

/-- Whether `pat` occurs at the start of `l` (character lists). -/
def startsWithL : List Char → List Char → Bool
  | [], _ => true
  | _ :: _, [] => false
  | p :: ps, c :: cs => p == c && startsWithL ps cs

/-- Python str.startswith on strings. -/
def strStartsWith (s pat : String) : Bool :=
  startsWithL pat.toList s.toList

/-- Whether `pat` occurs as a contiguous sublist of `l`. -/
def hasSubL (pat : List Char) : List Char → Bool
  | [] => pat.isEmpty
  | c :: t => startsWithL pat (c :: t) || hasSubL pat t

/-- Python substring containment, `pat in s`. -/
def strHasSub (s pat : String) : Bool :=
  hasSubL pat.toList s.toList

/-- The part of `l` strictly before the first occurrence of `pat`
(all of `l` if `pat` never occurs and `pat` is nonempty). -/
def takeUntilSub (pat : List Char) : List Char → List Char
  | [] => []
  | c :: t => if startsWithL pat (c :: t) then [] else c :: takeUntilSub pat t

/-- Python `s.split(" %")[0]`: the Exec value truncated at the first
placeholder marker, as in desktop_source.py line 96. -/
def extractExec (s : String) : String :=
  String.mk (takeUntilSub (" %".toList) s.toList)

/-- Characters the Python shlex module leaves unquoted
(ASCII letters, digits, and the punctuation of its safe set). -/
def shlexSafeChar (c : Char) : Bool :=
  c.isAlphanum || ("_@%+=:,./-".toList).contains c

/-- Model of Python shlex.quote: empty strings become two single quotes;
strings of safe characters pass through; anything else is wrapped in
single quotes with each inner single quote escaped. -/
def shlexQuote (s : String) : String :=
  if s.isEmpty then String.mk [squoteChar, squoteChar]
  else if s.toList.all shlexSafeChar then s
  else
    String.mk
      ([squoteChar] ++
        (s.toList.flatMap fun c =>
          if c == squoteChar then
            [squoteChar, dquoteChar, squoteChar, dquoteChar, squoteChar]
          else [c]) ++
        [squoteChar])

/-! ## SHA3-256

A complete executable model of the SHA3-256 digest used by
desktop_source.py (hashlib.sha3_256 over the UTF-8 bytes of the entry
path). Lanes are 64-bit words represented as Nat reduced modulo 2^64. -/

/-- Rotate a 64-bit word left by `n` bits. -/
def rotl64 (x n : Nat) : Nat :=
  ((x <<< n) ||| (x >>> (64 - n))) % (2 ^ 64)

/-- Keccak round constants. -/
def keccakRC : List Nat :=
  [0x0000000000000001, 0x0000000000008082, 0x800000000000808a,
   0x8000000080008000, 0x000000000000808b, 0x0000000080000001,
   0x8000000080008081, 0x8000000000008009, 0x000000000000008a,
   0x0000000000000088, 0x0000000080008009, 0x000000008000000a,
   0x000000008000808b, 0x800000000000008b, 0x8000000000008089,
   0x8000000000008003, 0x8000000000008002, 0x8000000000000080,
   0x000000000000800a, 0x800000008000000a, 0x8000000080008081,
   0x8000000000008080, 0x0000000080000001, 0x8000000080008008]

/-- Keccak rotation offsets for lane (x, y), flattened at index x + 5y. -/
def keccakRotOff : List Nat :=
  [0, 1, 62, 28, 27,
   36, 44, 6, 55, 20,
   3, 10, 43, 25, 39,
   41, 45, 15, 21, 8,
   18, 2, 61, 56, 14]

/-- Lane (x, y) of a 25-lane state (indices taken modulo 5). -/
def lane (s : List Nat) (x y : Nat) : Nat :=
  s.getD (x % 5 + 5 * (y % 5)) 0

/-- Keccak theta step. -/
def thetaStep (s : List Nat) : List Nat :=
  let col := fun x => lane s x 0 ^^^ lane s x 1 ^^^ lane s x 2 ^^^ lane s x 3 ^^^ lane s x 4
  let d := fun x => col ((x + 4) % 5) ^^^ rotl64 (col ((x + 1) % 5)) 1
  (List.range 25).map fun j => s.getD j 0 ^^^ d (j % 5)

/-- Keccak rho and pi steps combined. -/
def rhoPiStep (s : List Nat) : List Nat :=
  (List.range 25).map fun j =>
    let bx := j % 5
    let by_ := j / 5
    let x := (bx + 3 * by_) % 5
    let y := bx
    rotl64 (lane s x y) (keccakRotOff.getD (x + 5 * y) 0)

/-- Keccak chi step. -/
def chiStep (s : List Nat) : List Nat :=
  (List.range 25).map fun j =>
    let x := j % 5
    let y := j / 5
    lane s x y ^^^ ((lane s (x + 1) y ^^^ (2 ^ 64 - 1)) &&& lane s (x + 2) y)

/-- Keccak iota step for round `i`. -/
def iotaStep (i : Nat) (s : List Nat) : List Nat :=
  (List.range 25).map fun j =>
    if j == 0 then s.getD 0 0 ^^^ keccakRC.getD i 0 else s.getD j 0

/-- One Keccak-f round. -/
def keccakRound (s : List Nat) (i : Nat) : List Nat :=
  iotaStep i (chiStep (rhoPiStep (thetaStep s)))

/-- The full Keccak-f[1600] permutation (24 rounds). -/
def keccakF (s : List Nat) : List Nat :=
  (List.range 24).foldl keccakRound s

/-- SHA3 multi-rate padding to a multiple of the 136-byte rate
(domain byte 0x06, final bit 0x80). -/
def sha3_pad (msg : List Nat) : List Nat :=
  let q := 136 - msg.length % 136
  if q == 1 then msg ++ [0x86]
  else msg ++ [0x06] ++ List.replicate (q - 2) 0 ++ [0x80]

/-- Little-endian 64-bit word number `j` of a 136-byte block. -/
def leWord (block : List Nat) (j : Nat) : Nat :=
  (List.range 8).foldl (fun acc k => acc ||| (block.getD (8 * j + k) 0 <<< (8 * k))) 0

/-- Xor one 136-byte block into the first 17 lanes of the state. -/
def xorBlock (s block : List Nat) : List Nat :=
  (List.range 25).map fun j =>
    if j < 17 then s.getD j 0 ^^^ leWord block j else s.getD j 0

/-- Absorb a padded message into the sponge. -/
def sha3_absorb (padded : List Nat) : List Nat :=
  (List.range (padded.length / 136)).foldl
    (fun st i => keccakF (xorBlock st ((padded.drop (136 * i)).take 136)))
    (List.replicate 25 0)

/-- Squeeze the 32 output bytes of SHA3-256 from the state. -/
def sha3_squeeze (s : List Nat) : List Nat :=
  (List.range 32).map fun i => (s.getD (i / 8) 0 >>> (8 * (i % 8))) % 256

/-- Lowercase hexadecimal digit for a value below 16. -/
def hexDigit (n : Nat) : Char :=
  if n < 10 then Char.ofNat (48 + n) else Char.ofNat (87 + n)

/-- Two lowercase hexadecimal digits of one byte. -/
def byteHex (b : Nat) : List Char :=
  [hexDigit (b / 16), hexDigit (b % 16)]

/-- UTF-8 encoding of one character. -/
def charUtf8 (c : Char) : List Nat :=
  let n := c.toNat
  if n < 0x80 then [n]
  else if n < 0x800 then
    [0xC0 ||| (n >>> 6), 0x80 ||| (n &&& 0x3F)]
  else if n < 0x10000 then
    [0xE0 ||| (n >>> 12), 0x80 ||| ((n >>> 6) &&& 0x3F), 0x80 ||| (n &&& 0x3F)]
  else
    [0xF0 ||| (n >>> 18), 0x80 ||| ((n >>> 12) &&& 0x3F),
     0x80 ||| ((n >>> 6) &&& 0x3F), 0x80 ||| (n &&& 0x3F)]

/-- UTF-8 bytes of a string. -/
def utf8Bytes (s : String) : List Nat :=
  s.toList.flatMap charUtf8

/-- The SHA3-256 hex digest of the UTF-8 encoding of a string,
as computed by hashlib.sha3_256(... .encode("utf-8")).hexdigest(). -/
def sha3_256_hex (s : String) : String :=
  String.mk ((sha3_squeeze (sha3_absorb (sha3_pad (utf8Bytes s)))).flatMap byteHex)

/-! ## Desktop entry collector

Model of `DesktopSourceIterable.__iter__` and
`DesktopSourceIterable.check_launch_command` from desktop_source.py.
A `DesktopEntry` carries the path-derived attributes of one directory
entry together with the outcomes of the GLib keyfile reads: `none` for a
field means the corresponding `get_string` / `get_string_list` /
`get_boolean` call raised `GLib.GError` (missing key, malformed value, or,
for `loadOk = false`, a failed `load_from_file`). -/

/-- One candidate `.desktop` directory entry together with the outcomes of
its keyfile reads. -/
structure DesktopEntry where
  path : String
  fileName : String
  suffix : String
  stem : String
  loadOk : Bool
  categories : Option (List String)
  nameKey : Option String
  execKey : Option String
  noDisplay : Option Bool
  icon : Option String
deriving DecidableEq, Repr

/-- The values dict passed to `Game(values)` by the desktop collector. -/
structure DesktopGame where
  source : String
  added : Nat
  name : String
  game_id : String
  executable : String
deriving DecidableEq, Repr

/-- One produced item: either a bare game or a `(game, additional_data)`
pair, the additional data being a list of key/path associations. -/
inductive SourceItem where
  | bare (g : DesktopGame)
  | withData (g : DesktopGame) (data : List (String × String))
deriving DecidableEq, Repr

/-- The game carried by a produced item. -/
def itemGame : SourceItem → DesktopGame
  | .bare g => g
  | .withData g _ => g

/-- Whether a produced item is a bare game rather than a pair. -/
def isBare : SourceItem → Bool
  | .bare _ => true
  | .withData _ _ => false

/-- The candidate launch commands probed by `check_launch_command`, in
priority order, each paired with its `full_path` flag (`true` means the
built executable passes the full entry path, `false` means it passes the
bare stem). -/
def launchCommands : List (String × Bool) :=
  [("gio launch", true), ("gtk4-launch", false), ("gtk-launch", false)]

/-- Model of `check_launch_command`: probe the candidates in order against
the availability oracle `avail` and return the first available one;
when none is available, return `commands[2]`. -/
def check_launch_command (avail : String → Bool) : String × Bool :=
  match launchCommands.find? (fun c => avail c.1) with
  | some c => c
  | none => launchCommands.getD 2 ("gtk-launch", false)

/-- The values dict built for one accepted desktop entry
(desktop_source.py lines 121-130). -/
def mkDesktopGame (addedTime : Nat) (launch : String × Bool)
    (e : DesktopEntry) (nm : String) : DesktopGame :=
  { source := "desktop"
    added := addedTime
    name := nm
    game_id := "desktop_" ++ sha3_256_hex e.path
    executable :=
      launch.1 ++ " " ++ shlexQuote (if launch.2 then e.path else e.stem) }

/-- Model of the body of the entry loop of `DesktopSourceIterable.__iter__`
(desktop_source.py lines 77-163): `none` means the entry is skipped, and
`some item` is the produced item. `lookupIcon` models the icon-theme
lookup: `none` covers both a raised `GLib.GError` and a null path. -/
def processEntry (addedTime : Nat) (launch : String × Bool)
    (lookupIcon : String → Option String) (e : DesktopEntry) :
    Option SourceItem :=
  if e.suffix != ".desktop" then none
  else if strStartsWith e.fileName "net.lutris." then none
  else if !e.loadOk then none
  else match e.categories with
  | none => none
  | some cats =>
    if !cats.contains "Game" then none
    else match e.nameKey with
    | none => none
    | some nm =>
      match e.execKey with
      | none => none
      | some ex =>
        let executable := extractExec ex
        if strHasSub executable "steam://rungameid/" then none
        else if strHasSub executable "heroic://launch/" then none
        else if strHasSub executable "bottles-cli " then none
        else if e.noDisplay == some true then none
        else
          let game := mkDesktopGame addedTime launch e nm
          match e.icon with
          | none => some (SourceItem.bare game)
          | some iconStr =>
            if strHasSub iconStr "/" then
              some (SourceItem.withData game [("local_icon_path", iconStr)])
            else
              match lookupIcon iconStr with
              | some iconPath =>
                  some (SourceItem.withData game [("local_icon_path", iconPath)])
              | none => some (SourceItem.withData game [])

/-- One whole pass of the desktop collector over its discovered entries:
the `added` timestamp is captured once (the first and only `time()` call,
`clock 0`) and the launch command is probed once, before the loop. -/
def desktopPass (clock : Nat → Nat) (avail : String → Bool)
    (lookupIcon : String → Option String) (entries : List DesktopEntry) :
    List SourceItem :=
  entries.filterMap
    (processEntry (clock 0) (check_launch_command avail) lookupIcon)

/-! ## Lutris collector

Model of `LutrisSourceIterator.generator_builder` from lutris_source.py.
A `LutrisRow` is one row of the `games` table with the columns the query
touches; `Option` encodes SQL NULL. The SELECT projects
`id, name, slug, runner, hidden`, so `row[0] .. row[4]` are those columns
in that order. -/

/-- One row of the games table of the foreign Lutris database. -/
structure LutrisRow where
  id : Int
  name : Option String
  slug : Option String
  runner : Option String
  configPath : Option String
  installed : Option Int
  hidden : Int
deriving DecidableEq, Repr

/-- The values dict passed to `Game(values, allow_side_effects=False)` by
the Lutris collector. -/
structure LutrisGame where
  version : String
  added : Nat
  hidden : Int
  name : Option String
  source : String
  game_id : String
  executable : String
deriving DecidableEq, Repr

/-- Modelled from the spec: `Source.id` lives in
src/importer/sources/source.py, which is not under src/; the spec calls it
the stable identifier of the originating collector, here the lowercase
collector name of `LutrisSource` (`name = "Lutris"`). -/
def lutrisSourceId : String := "lutris"

/-- Modelled from the spec: the base `Source.game_id_format` is not under
src/; the spec describes the id-format as combining the external slug and
the external internal numeric id, namespaced by the source id. The
override in src (lutris_source.py, `game_id_format`) appends
`_{game_internal_id}` to the inherited `{source id}_{game_id}` format, and
the collector formats it with `game_id=row[2]` (the slug) and
`game_internal_id=row[0]` (the numeric id). -/
def lutrisGameIdFormat (slug : String) (internalId : Int) : String :=
  lutrisSourceId ++ "_" ++ slug ++ "_" ++ toString internalId

/-- The URL format of `LutrisSource` from src:
`url_format = "lutris:rungameid/{game_id}"`. -/
def lutrisUrlFormat (gameId : String) : String :=
  "lutris:rungameid/" ++ gameId

/-- Modelled from the spec: `URLExecutableSource.executable_format` is not
under src/; the spec describes the executable as a URL-scheme invocation
(the resolved `url_format`) handed to a generic opener command. -/
def lutrisExecutableFormat (gameId : String) : String :=
  "xdg-open " ++ lutrisUrlFormat gameId

/-- Python str() of an optional text cell, as used by the f-string
`f"{self.source.id}_{row[3]}"` (a NULL cell prints as None). -/
def pyStrOpt : Option String → String
  | some s => s
  | none => "None"

/-- The WHERE clause of the query of `generator_builder`
(lutris_source.py lines 42-52): name, slug and configPath non-NULL,
`installed` truthy, and `runner IS NOT "steam" OR :import_steam`
(an SQLite `IS NOT` comparison is null-safe, so a NULL runner passes). -/
def lutrisRowSelected (importSteam : Bool) (r : LutrisRow) : Bool :=
  r.name.isSome && r.slug.isSome && r.configPath.isSome &&
    (match r.installed with
     | some v => v != 0
     | none => false) &&
    (!(r.runner == some "steam") || importSteam)

/-- The values dict and game built for one selected row
(lutris_source.py lines 61-72). `added` is the value of the `time()` call
made while processing this row. -/
def mkLutrisGame (specVersion : String) (added : Nat) (r : LutrisRow) :
    LutrisGame :=
  { version := specVersion
    added := added
    hidden := r.hidden
    name := r.name
    source := lutrisSourceId ++ "_" ++ pyStrOpt r.runner
    game_id := lutrisGameIdFormat (pyStrOpt r.slug) r.id
    executable := lutrisExecutableFormat (pyStrOpt r.slug) }

/-- The outcome of driving the Lutris generator to its end: the yielded
`(game, additional_data)` pairs, whether an exception escaped the row
loop, and whether the `rmtree` cleanup line was reached. -/
structure LutrisRunResult where
  items : List (LutrisGame × List (String × String))
  raised : Bool
  tempDirRemoved : Bool
deriving DecidableEq, Repr

/-- The row loop of `generator_builder` over the already-selected rows.
`failAt = some i` models an exception raised while processing the i-th
selected row (for example from the `Game` constructor): the rows before it
were already yielded, the exception propagates out of the generator, and,
because the source places `rmtree(str(db_path.parent))` after the loop
with no try/finally around it, the cleanup line is never reached on that
path. `i` also counts the `time()` calls, one per processed row. -/
def lutrisLoop (specVersion cacheCoverart : String) (clock : Nat → Nat)
    (failAt : Option Nat) : Nat → List LutrisRow → LutrisRunResult
  | _, [] => { items := [], raised := false, tempDirRemoved := true }
  | i, r :: rest =>
    if failAt == some i then
      { items := [], raised := true, tempDirRemoved := false }
    else
      let g := mkLutrisGame specVersion (clock i) r
      let imagePath := cacheCoverart ++ "/" ++ pyStrOpt r.slug ++ ".jpg"
      let tail := lutrisLoop specVersion cacheCoverart clock failAt (i + 1) rest
      { tail with items := (g, [("local_image_path", imagePath)]) :: tail.items }

/-- One whole pass of the Lutris generator: filter the rows with the query
predicate, then run the row loop; the temporary snapshot directory is
removed only when the loop ends normally. -/
def lutrisPass (importSteam : Bool) (specVersion cacheCoverart : String)
    (clock : Nat → Nat) (rows : List LutrisRow) (failAt : Option Nat) :
    LutrisRunResult :=
  lutrisLoop specVersion cacheCoverart clock failAt 0
    (rows.filter (lutrisRowSelected importSteam))

/-! ## Concrete scenario data -/

/-- Icon-theme lookup oracle that always fails. -/
def noLookup : String → Option String := fun _ => none

/-- A well-formed game desktop entry, as in the scenario of the spec. -/
def fooEntry : DesktopEntry :=
  { path := "/usr/share/applications/foo.desktop"
    fileName := "foo.desktop"
    suffix := ".desktop"
    stem := "foo"
    loadOk := true
    categories := some ["Game"]
    nameKey := some "Foo"
    execKey := some "foo %U"
    noDisplay := none
    icon := some "foo-icon" }

/-- The SHA3-256 hex digest of the path of `fooEntry`. -/
def fooDigest : String :=
  "7d723e3a41a160bfcfb506220ac9001e9da9a1222e4f81831da1458e23671212"

/-- The game built from `fooEntry` with `added = 5` and the fallback
launch command. -/
def fooGame : DesktopGame :=
  { source := "desktop"
    added := 5
    name := "Foo"
    game_id := "desktop_" ++ fooDigest
    executable := "gtk-launch foo" }

/-- The item produced from `fooEntry` when the icon lookup fails: a pair
with an empty additional-data mapping. -/
def fooItem : SourceItem := SourceItem.withData fooGame []

/-- The variant of `fooEntry` whose Icon key cannot be read. -/
def fooEntryNoIcon : DesktopEntry := { fooEntry with icon := none }

/-- The item produced from `fooEntry` with `added = 0` under the fallback
launch command probed with nothing available. -/
def c4Item : SourceItem :=
  SourceItem.withData { fooGame with added := 0 } []

/-- The item produced from `fooEntry` with `added = 3` under a probe that
only detects gtk4-launch. -/
def c5Item : SourceItem :=
  SourceItem.withData
    { fooGame with added := 3, executable := "gtk4-launch foo" } []

/-- A desktop entry whose Exec delegates to Steam. -/
def steamEntry : DesktopEntry :=
  { fooEntry with execKey := some "steam://rungameid/1234 %U" }

/-- The single qualifying Lutris row of the scenario of the spec. -/
def lutRowBar : LutrisRow :=
  { id := 1
    name := some "Bar"
    slug := some "bar"
    runner := some "wine"
    configPath := some "/cfg/bar.yml"
    installed := some 1
    hidden := 0 }

/-- A second qualifying Lutris row. -/
def lutRowBaz : LutrisRow :=
  { id := 2
    name := some "Baz"
    slug := some "baz"
    runner := some "wine"
    configPath := some "/cfg/baz.yml"
    installed := some 1
    hidden := 0 }

/-- A placeholder produced pair used as the default of `List.getD`. -/
def dummyLutrisItem : LutrisGame × List (String × String) :=
  (mkLutrisGame "" 0 lutRowBar, [])

/-- One normal Lutris pass over the scenario database with the steam
toggle off. -/
def lutScenario : LutrisRunResult :=
  lutrisPass false "1.0" "/cache/coverart" (fun _ => 100) [lutRowBar] none

/-! ## Helper lemmas -/

/-- Every item produced by `processEntry` carries the game built by
`mkDesktopGame` for some successfully read Name value. -/
theorem processEntry_some_mk (a : Nat) (l : String × Bool)
    (lk : String → Option String) (e : DesktopEntry) (it : SourceItem)
    (h : processEntry a l lk e = some it) :
    ∃ nm, e.nameKey = some nm ∧ itemGame it = mkDesktopGame a l e nm := by
  simp only [processEntry] at h
  repeat' split at h
  all_goals simp_all [itemGame]
  all_goals (subst h; rfl)

/-- Inversion facts for a produced entry: its NoDisplay read did not
return true, and its Exec read succeeded with a value whose extracted
executable contains none of the other-source markers. -/
theorem processEntry_some_facts (a : Nat) (l : String × Bool)
    (lk : String → Option String) (e : DesktopEntry) (it : SourceItem)
    (h : processEntry a l lk e = some it) :
    e.noDisplay ≠ some true ∧
    ∃ ex, e.execKey = some ex ∧
      strHasSub (extractExec ex) "steam://rungameid/" = false ∧
      strHasSub (extractExec ex) "heroic://launch/" = false ∧
      strHasSub (extractExec ex) "bottles-cli " = false := by
  simp only [processEntry] at h
  repeat' split at h
  all_goals simp_all

/-- A run of the Lutris row loop that is never interrupted reaches the
cleanup line and raises nothing. -/
theorem lutrisLoop_none_clean (v cc : String) (clock : Nat → Nat) :
    ∀ (rows : List LutrisRow) (i : Nat),
      (lutrisLoop v cc clock none i rows).tempDirRemoved = true ∧
      (lutrisLoop v cc clock none i rows).raised = false := by
  intro rows
  induction rows with
  | nil => intro i; simp [lutrisLoop]
  | cons r rest ih => intro i; simpa [lutrisLoop] using ih (i + 1)

/-- In an uninterrupted run of the Lutris row loop started at call counter
`i0`, the j-th yielded record carries the clock reading of call `i0 + j`. -/
theorem lutrisLoop_added (v cc : String) (clock : Nat → Nat) :
    ∀ (rows : List LutrisRow) (i0 j : Nat)
      (h : j < (lutrisLoop v cc clock none i0 rows).items.length),
      ((lutrisLoop v cc clock none i0 rows).items.get ⟨j, h⟩).1.added =
        clock (i0 + j) := by
  intro rows
  induction rows with
  | nil => intro i0 j h; simp [lutrisLoop] at h
  | cons r rest ih =>
    intro i0 j h
    match j with
    | 0 => simp [lutrisLoop, mkLutrisGame]
    | j' + 1 =>
      have hlt : j' < (lutrisLoop v cc clock none (i0 + 1) rest).items.length := by
        simpa [lutrisLoop] using h
      have := ih (i0 + 1) j' hlt
      have harith : i0 + 1 + j' = i0 + (j' + 1) := by omega
      rw [harith] at this
      simpa [lutrisLoop] using this

/-- Every pair yielded by the Lutris row loop carries a single-entry
additional-data mapping with a cover image path under the cache root. -/
theorem lutrisLoop_mem_snd (v cc : String) (clock : Nat → Nat)
    (failAt : Option Nat) :
    ∀ (rows : List LutrisRow) (i : Nat) (p : LutrisGame × List (String × String)),
      p ∈ (lutrisLoop v cc clock failAt i rows).items →
      ∃ s, p.2 = [("local_image_path", cc ++ "/" ++ s ++ ".jpg")] := by
  intro rows
  induction rows with
  | nil => intro i p hm; simp [lutrisLoop] at hm
  | cons r rest ih =>
    intro i p hm
    simp only [lutrisLoop] at hm
    split at hm
    · simp at hm
    · rcases List.mem_cons.mp hm with h | h
      · exact ⟨pyStrOpt r.slug, by rw [h]⟩
      · exact ih (i + 1) p h

/-! ## Supporting evidence for the digest model -/

set_option maxRecDepth 40000 in
/-- NIST test vector: SHA3-256 of the empty message. -/
theorem sha3_256_hex_empty :
    sha3_256_hex "" =
      "a7ffc6f8bf1ed76651c14756a061d662f580ff4de43b49fa82d80a4b80f8434a" := by
  decide

set_option maxRecDepth 40000 in
/-- NIST test vector: SHA3-256 of the message abc. -/
theorem sha3_256_hex_abc :
    sha3_256_hex "abc" =
      "3a985da74fe225b2045c172d6bd390bd855f086e3e9d525b46bfe24511431532" := by
  decide

/-! ## Claim theorems -/

/-- C1: the claim states that the temporary snapshot directory is removed
both on normal completion and when the row loop raises partway. In the
source, `rmtree(str(db_path.parent))` stands after the loop with no
try/finally, so an exception while processing a row (here at the first
selected row) escapes the generator before the cleanup line: the directory
is removed on the normal path but not on the exception path. -/
theorem c1_snapshot_cleanup :
    (lutrisPass true "1.0" "/cache/coverart" (fun _ => 100) [lutRowBar]
        (some 0)).raised = true ∧
    (lutrisPass true "1.0" "/cache/coverart" (fun _ => 100) [lutRowBar]
        (some 0)).tempDirRemoved = false ∧
    (lutrisPass true "1.0" "/cache/coverart" (fun _ => 100) [lutRowBar]
        none).tempDirRemoved = true := by
  decide

/-- C2 counterexample: the Lutris collector reads the clock once per row,
not once per pass. With a clock that advances between the two rows of one
invocation, the two produced records carry different added values. -/
theorem c2_counterexample :
    (lutrisPass false "1.0" "/cache/coverart" (fun n => n)
        [lutRowBar, lutRowBaz] none).items.length = 2 ∧
    ((lutrisPass false "1.0" "/cache/coverart" (fun n => n)
        [lutRowBar, lutRowBaz] none).items.getD 0 dummyLutrisItem).1.added = 0 ∧
    ((lutrisPass false "1.0" "/cache/coverart" (fun n => n)
        [lutRowBar, lutRowBaz] none).items.getD 1 dummyLutrisItem).1.added = 1 := by
  decide

/-- C2 (amended): the desktop collector captures the timestamp exactly
once per pass (the clock reading of call 0), so all its records share one
added value; the Lutris collector captures a fresh timestamp for each
record, so its j-th record carries the clock reading of call j and records
of one pass agree only when the clock does not advance between rows. -/
theorem c2_added_capture :
    (∀ (clock : Nat → Nat) (avail : String → Bool)
       (lk : String → Option String) (entries : List DesktopEntry)
       (it : SourceItem),
       it ∈ desktopPass clock avail lk entries → (itemGame it).added = clock 0) ∧
    (∀ (b : Bool) (v cc : String) (clock : Nat → Nat) (rows : List LutrisRow)
       (j : Nat) (h : j < (lutrisPass b v cc clock rows none).items.length),
       ((lutrisPass b v cc clock rows none).items.get ⟨j, h⟩).1.added =
         clock j) := by
  constructor
  · intro clock avail lk entries it hm
    obtain ⟨e, _, he⟩ := List.mem_filterMap.mp hm
    obtain ⟨nm, _, hg⟩ := processEntry_some_mk _ _ _ _ _ he
    rw [hg]
    rfl
  · intro b v cc clock rows j h
    simpa using lutrisLoop_added v cc clock
      (rows.filter (lutrisRowSelected b)) 0 j h

set_option maxRecDepth 40000 in
/-- C2 witness: concrete runs of both collectors at the inputs of the
amended statement. -/
theorem c2_added_capture_witness :
    (itemGame fooItem).added = 5 ∧
    ((lutrisPass false "1.0" "/cache/coverart" (fun _ => 100) [lutRowBar]
        none).items.get ⟨0, by decide⟩).1.added = 100 :=
  ⟨c2_added_capture.1 (fun _ => 5) (fun _ => false) noLookup [fooEntry]
      fooItem (by decide),
   c2_added_capture.2 false "1.0" "/cache/coverart" (fun _ => 100)
      [lutRowBar] 0 (by decide)⟩

/-- C3: every record produced by the desktop collector has
`game_id = "desktop_" ++ sha3_256_hex` of the entry path, and hence two
runs over entries with the same path produce the same game_id whatever the
other metadata, launch command, timestamp or icon environment. -/
theorem c3_game_id_digest :
    (∀ (a : Nat) (l : String × Bool) (lk : String → Option String)
       (e : DesktopEntry) (it : SourceItem),
       processEntry a l lk e = some it →
       (itemGame it).game_id = "desktop_" ++ sha3_256_hex e.path) ∧
    (∀ (a₁ : Nat) (l₁ : String × Bool) (lk₁ : String → Option String)
       (a₂ : Nat) (l₂ : String × Bool) (lk₂ : String → Option String)
       (e₁ e₂ : DesktopEntry) (i₁ i₂ : SourceItem),
       processEntry a₁ l₁ lk₁ e₁ = some i₁ →
       processEntry a₂ l₂ lk₂ e₂ = some i₂ →
       e₁.path = e₂.path →
       (itemGame i₁).game_id = (itemGame i₂).game_id) := by
  have key : ∀ (a : Nat) (l : String × Bool) (lk : String → Option String)
      (e : DesktopEntry) (it : SourceItem),
      processEntry a l lk e = some it →
      (itemGame it).game_id = "desktop_" ++ sha3_256_hex e.path := by
    intro a l lk e it h
    obtain ⟨nm, _, hg⟩ := processEntry_some_mk _ _ _ _ _ h
    rw [hg]
    rfl
  refine ⟨key, ?_⟩
  intro a₁ l₁ lk₁ a₂ l₂ lk₂ e₁ e₂ i₁ i₂ h₁ h₂ hp
  rw [key a₁ l₁ lk₁ e₁ i₁ h₁, key a₂ l₂ lk₂ e₂ i₂ h₂, hp]

set_option maxRecDepth 40000 in
/-- C3 witness: the scenario entry evaluated concretely; its digest equals
the independently computed SHA3-256 of its path. -/
theorem c3_game_id_digest_witness :
    processEntry 5 ("gtk-launch", false) noLookup fooEntry = some fooItem ∧
    (itemGame fooItem).game_id = "desktop_" ++ sha3_256_hex fooEntry.path := by
  have h : processEntry 5 ("gtk-launch", false) noLookup fooEntry =
      some fooItem := by decide
  exact ⟨h, c3_game_id_digest.1 5 ("gtk-launch", false) noLookup fooEntry
      fooItem h⟩

set_option maxRecDepth 40000 in
/-- C4 counterexample: with no candidate detected the prober indeed falls
back to `commands[2] = ("gtk-launch", False)` without failing, but
`full_path = False` means records built with it pass the shell-escaped
stem (the bare application id), not the full entry path, contradicting the
final conjunct of the claim. -/
theorem c4_counterexample :
    check_launch_command (fun _ => false) = ("gtk-launch", false) ∧
    processEntry 0 (check_launch_command (fun _ => false)) noLookup fooEntry =
      some c4Item ∧
    (itemGame c4Item).executable = "gtk-launch " ++ shlexQuote fooEntry.stem ∧
    (itemGame c4Item).executable ≠ "gtk-launch " ++ shlexQuote fooEntry.path := by
  decide

/-- C4 (amended): probe exhaustion is never fatal; the prober returns the
final candidate `("gtk-launch", false)`, and records built with that
command carry the shell-escaped bare stem (application id) as argument. -/
theorem c4_fallback (avail : String → Bool)
    (h : ∀ c ∈ launchCommands, avail c.1 = false) :
    check_launch_command avail = ("gtk-launch", false) ∧
    ∀ (a : Nat) (lk : String → Option String) (e : DesktopEntry)
      (it : SourceItem),
      processEntry a (check_launch_command avail) lk e = some it →
      (itemGame it).executable = "gtk-launch " ++ shlexQuote e.stem := by
  have h1 : avail "gio launch" = false :=
    h ("gio launch", true) (by simp [launchCommands])
  have h2 : avail "gtk4-launch" = false :=
    h ("gtk4-launch", false) (by simp [launchCommands])
  have h3 : avail "gtk-launch" = false :=
    h ("gtk-launch", false) (by simp [launchCommands])
  have hc : check_launch_command avail = ("gtk-launch", false) := by
    simp [check_launch_command, launchCommands, List.find?, h1, h2, h3]
  refine ⟨hc, ?_⟩
  intro a lk e it hp
  obtain ⟨nm, _, hg⟩ := processEntry_some_mk _ _ _ _ _ hp
  rw [hg, hc]
  rfl

set_option maxRecDepth 40000 in
/-- C4 witness: the fallback evaluated at the all-unavailable oracle and a
concrete entry. -/
theorem c4_fallback_witness :
    check_launch_command (fun _ => false) = ("gtk-launch", false) ∧
    (itemGame c4Item).executable = "gtk-launch " ++ shlexQuote fooEntry.stem := by
  have hp : processEntry 0 (check_launch_command (fun _ => false)) noLookup
      fooEntry = some c4Item := by decide
  have hc := c4_fallback (fun _ => false) (by decide)
  exact ⟨hc.1, hc.2 0 noLookup fooEntry c4Item hp⟩

/-- C5: every produced record has executable equal to the probed launch
command, one space, and the shell-escaped argument, which is the full
entry path when the probed pair carries `full_path = true` (the command
requires a file path) and the bare stem (application id) when
`full_path = false` (the command resolves by id). -/
theorem c5_executable_shape :
    ∀ (avail : String → Bool) (a : Nat) (lk : String → Option String)
      (e : DesktopEntry) (it : SourceItem),
      processEntry a (check_launch_command avail) lk e = some it →
      (itemGame it).executable =
        (check_launch_command avail).1 ++ " " ++
          shlexQuote
            (if (check_launch_command avail).2 then e.path else e.stem) := by
  intro avail a lk e it h
  obtain ⟨nm, _, hg⟩ := processEntry_some_mk _ _ _ _ _ h
  rw [hg]
  rfl

set_option maxRecDepth 40000 in
/-- C5 witness: a probe that detects only gtk4-launch (an id-resolving
command) produces a record whose argument is the bare stem. -/
theorem c5_executable_shape_witness :
    processEntry 3 (check_launch_command (fun c => c == "gtk4-launch"))
        noLookup fooEntry = some c5Item ∧
    (itemGame c5Item).executable =
      (check_launch_command (fun c => c == "gtk4-launch")).1 ++ " " ++
        shlexQuote
          (if (check_launch_command (fun c => c == "gtk4-launch")).2 then
            fooEntry.path
          else fooEntry.stem) := by
  have h : processEntry 3 (check_launch_command (fun c => c == "gtk4-launch"))
      noLookup fooEntry = some c5Item := by decide
  exact ⟨h, c5_executable_shape (fun c => c == "gtk4-launch") 3 noLookup
      fooEntry c5Item h⟩

/-- C6: the query keeps exactly the rows with non-NULL name, slug and
configPath, a truthy installed flag, and a runner different from steam
unless the import-steam setting is on (`IS NOT` is null-safe, so a NULL
runner always passes the runner condition). -/
theorem c6_query_filter :
    ∀ (b : Bool) (rows : List LutrisRow) (r : LutrisRow),
      r ∈ rows.filter (lutrisRowSelected b) ↔
        r ∈ rows ∧ r.name.isSome = true ∧ r.slug.isSome = true ∧
          r.configPath.isSome = true ∧
          (∃ v, r.installed = some v ∧ v ≠ 0) ∧
          (r.runner = some "steam" → b = true) := by
  intro b rows r
  rw [List.mem_filter]
  refine and_congr_right fun _ => ?_
  simp only [lutrisRowSelected, Bool.and_eq_true, Bool.or_eq_true,
    Bool.not_eq_true', beq_eq_false_iff_ne, ne_eq]
  constructor
  · rintro ⟨⟨⟨⟨hn, hs⟩, hcf⟩, hi⟩, hr⟩
    refine ⟨hn, hs, hcf, ?_, ?_⟩
    · cases hins : r.installed with
      | none => rw [hins] at hi; simp at hi
      | some v =>
        rw [hins] at hi
        simp only [bne_iff_ne, ne_eq] at hi
        exact ⟨v, rfl, hi⟩
    · intro hsteam
      rcases hr with hne | hb
      · exact absurd hsteam hne
      · exact hb
  · rintro ⟨hn, hs, hcf, ⟨v, hv, hv0⟩, himp⟩
    refine ⟨⟨⟨⟨hn, hs⟩, hcf⟩, ?_⟩, ?_⟩
    · rw [hv]
      simpa using hv0
    · by_cases hsteam : r.runner = some "steam"
      · exact Or.inr (himp hsteam)
      · exact Or.inl hsteam

/-- C7 counterexample: on the scenario database the single produced record
has executable `"xdg-open lutris:rungameid/bar"` (the url_format of the
source instantiated with the slug), which does not contain the substring
`slug=bar`. -/
theorem c7_counterexample :
    lutScenario.items.length = 1 ∧
    strHasSub (lutScenario.items.getD 0 dummyLutrisItem).1.executable
      "slug=bar" = false := by
  decide

/-- C7 (amended): the scenario database yields exactly one record with
source `lutris_wine`, game_id combining the slug bar and the internal id 1
(`lutris_bar_1`), hidden copied from the row, and an executable containing
`rungameid/bar` (the URL invocation parameterized by the slug) rather than
`slug=bar`. -/
theorem c7_scenario :
    lutScenario.items.length = 1 ∧
    (lutScenario.items.getD 0 dummyLutrisItem).1.source =
      lutrisSourceId ++ "_wine" ∧
    (lutScenario.items.getD 0 dummyLutrisItem).1.game_id =
      lutrisGameIdFormat "bar" 1 ∧
    lutrisGameIdFormat "bar" 1 = "lutris_bar_1" ∧
    strHasSub (lutScenario.items.getD 0 dummyLutrisItem).1.executable
      "rungameid/bar" = true ∧
    (lutScenario.items.getD 0 dummyLutrisItem).1.hidden = 0 := by
  decide

/-- C8: an entry whose NoDisplay flag reads true is skipped whatever its
other fields, and an entry whose NoDisplay read returns false is treated
exactly like one whose read raises (key absent or value malformed). -/
theorem c8_nodisplay :
    ∀ (a : Nat) (l : String × Bool) (lk : String → Option String)
      (e : DesktopEntry),
      processEntry a l lk { e with noDisplay := some true } = none ∧
      processEntry a l lk { e with noDisplay := some false } =
        processEntry a l lk { e with noDisplay := none } := by
  intro a l lk e
  constructor
  · cases hp : processEntry a l lk { e with noDisplay := some true } with
    | none => rfl
    | some it =>
      have hf := (processEntry_some_facts _ _ _ _ _ hp).1
      simp at hf
  · cases e
    rfl

/-- C9: any entry whose extracted executable contains one of the three
other-source markers is excluded from the output. -/
theorem c9_markers :
    ∀ (a : Nat) (l : String × Bool) (lk : String → Option String)
      (e : DesktopEntry),
      (strHasSub (extractExec (e.execKey.getD "")) "steam://rungameid/" ||
       strHasSub (extractExec (e.execKey.getD "")) "heroic://launch/" ||
       strHasSub (extractExec (e.execKey.getD "")) "bottles-cli ") = true →
      processEntry a l lk e = none := by
  intro a l lk e hm
  cases hp : processEntry a l lk e with
  | none => rfl
  | some it =>
    obtain ⟨ex, heq, f1, f2, f3⟩ := (processEntry_some_facts _ _ _ _ _ hp).2
    rw [heq] at hm
    simp [f1, f2, f3] at hm

/-- C9 witness: a Steam proxy entry is excluded. -/
theorem c9_markers_witness :
    (strHasSub (extractExec (steamEntry.execKey.getD ""))
        "steam://rungameid/" ||
     strHasSub (extractExec (steamEntry.execKey.getD "")) "heroic://launch/" ||
     strHasSub (extractExec (steamEntry.execKey.getD "")) "bottles-cli ") =
      true ∧
    processEntry 0 ("gtk-launch", false) noLookup steamEntry = none :=
  ⟨by decide, c9_markers 0 ("gtk-launch", false) noLookup steamEntry (by decide)⟩

/-- C10: the desktop collector yields a bare record exactly when the Icon
read raises; otherwise it yields a pair whose mapping holds the literal
icon path when the icon value contains a path separator, the looked-up
theme path when the lookup succeeds, and nothing when it fails. The Lutris
collector always yields pairs whose mapping is exactly one cover-image
path under the cache root. -/
theorem c10_item_shapes :
    (∀ (a : Nat) (l : String × Bool) (lk : String → Option String)
       (e : DesktopEntry) (it : SourceItem),
       processEntry a l lk e = some it →
         isBare it = e.icon.isNone ∧
         ∀ s, e.icon = some s →
           it = SourceItem.withData (itemGame it)
             (if strHasSub s "/" = true then [("local_icon_path", s)]
              else
                match lk s with
                | some p => [("local_icon_path", p)]
                | none => [])) ∧
    (∀ (b : Bool) (v cc : String) (clock : Nat → Nat)
       (rows : List LutrisRow) (failAt : Option Nat)
       (p : LutrisGame × List (String × String)),
       p ∈ (lutrisPass b v cc clock rows failAt).items →
       ∃ s, p.2 = [("local_image_path", cc ++ "/" ++ s ++ ".jpg")]) := by
  constructor
  · intro a l lk e it h
    simp only [processEntry] at h
    repeat' split at h
    all_goals simp_all [isBare, itemGame]
    all_goals (subst h; simp_all [isBare, itemGame])
  · intro b v cc clock rows failAt p hm
    exact lutrisLoop_mem_snd v cc clock failAt
      (rows.filter (lutrisRowSelected b)) 0 p hm

set_option maxRecDepth 40000 in
/-- C10 witness: the entry with an unreadable Icon key produces a bare
record. -/
theorem c10_item_shapes_witness :
    processEntry 5 ("gtk-launch", false) noLookup fooEntryNoIcon =
      some (SourceItem.bare fooGame) ∧
    isBare (SourceItem.bare fooGame) = fooEntryNoIcon.icon.isNone := by
  have h : processEntry 5 ("gtk-launch", false) noLookup fooEntryNoIcon =
      some (SourceItem.bare fooGame) := by decide
  exact ⟨h, (c10_item_shapes.1 5 ("gtk-launch", false) noLookup fooEntryNoIcon
      (SourceItem.bare fooGame) h).1⟩

end Kasetter
